import Mathlib

/-!
# Verification of the TickTick MCP server's OAuth/token core

Shallow embedding of `src/oauth.ts` (class `TickTickOAuth` and class
`TickTickClient`) and `src/sdk/errors.ts` (`createErrorFromResponse`) from the
`ticktick-mcp` repository.

Conventions of the embedding:
* Unix-epoch milliseconds (`Date.now()`, `expiresAt`, `storedAt`) are `Int`.
  Every call of `Date.now()` in the source becomes an explicit clock
  parameter, in the order the source reads the clock.
* The token file is `Option TokenFileContent`: `none` when the file does not
  exist (`existsSync` false); `some (.valid t)` when the file's contents are
  the JSON serialization of the stored token `t`; `some (.invalid raw)` when
  the file exists but its contents `raw` do not parse as JSON (this includes
  the empty string written by `clearToken`).
* Network calls (`fetch` inside `refreshToken`) are oracles: the outcome of
  the single refresh call is passed in as an `Except` value, and the model
  counts how many such calls the control flow performs.
-/

namespace TickTick

/-- `StoredToken` from `src/oauth.ts` (file-persisted record). -/
structure StoredToken where
  accessToken : String
  refreshToken : String
  /-- Absolute expiry, Unix epoch ms. -/
  expiresAt : Int
  tokenType : String
  /-- When the token was stored, Unix epoch ms. -/
  storedAt : Int
  deriving Repr, DecidableEq

/-- `TokenResponse` from `src/sdk/types.ts` (OAuth token endpoint wire format). -/
structure TokenResponse where
  access_token : String
  token_type : String
  /-- Relative expiry in seconds. -/
  expires_in : Int
  refresh_token : String
  deriving Repr, DecidableEq

/-- Contents of the token file when it exists: either the JSON serialization of
a `StoredToken` (what `storeToken` writes), or text that does not parse as a
`StoredToken` — in particular the empty string written by `clearToken`. -/
inductive TokenFileContent where
  | valid (t : StoredToken)
  | invalid (raw : String)
  deriving Repr, DecidableEq

/-- `TickTickOAuth.loadToken` (src/oauth.ts:340-352): `null` when the file does
not exist, `null` when reading/JSON-parsing throws (the `catch` branch),
otherwise the parsed record. -/
def loadToken : Option TokenFileContent → Option StoredToken
  | none => none
  | some (.valid t) => some t
  | some (.invalid _) => none

/-- The `StoredToken` value built at the top of `TickTickOAuth.storeToken`
(src/oauth.ts:307-313). The source reads `Date.now()` twice: `now1` for
`expiresAt`, `now2` for `storedAt`. -/
def toStoredToken (tokens : TokenResponse) (now1 now2 : Int) : StoredToken :=
  ⟨tokens.access_token, tokens.refresh_token, now1 + tokens.expires_in * 1000,
    tokens.token_type, now2⟩

/-- `TickTickOAuth.storeToken` (src/oauth.ts:306-325): converts the response to
a `StoredToken` and overwrites the token file with its JSON serialization
(directory creation and the 0600 file mode have no effect on file contents). -/
def storeToken (_file : Option TokenFileContent) (tokens : TokenResponse)
    (now1 now2 : Int) : Option TokenFileContent :=
  some (.valid (toStoredToken tokens now1 now2))

/-- `TickTickOAuth.clearToken` (src/oauth.ts:362-366): if the file exists,
overwrite it with the empty string (it is not deleted); otherwise do nothing. -/
def clearToken : Option TokenFileContent → Option TokenFileContent
  | none => none
  | some _ => some (.invalid "")

/-- The default of the `bufferSeconds` parameter of
`TickTickOAuth.isTokenExpired` (src/oauth.ts:375). -/
def defaultBufferSeconds : Int := 60

/-- `TickTickOAuth.isTokenExpired` (src/oauth.ts:375-378):
`Date.now() >= expiresAt - bufferSeconds*1000`, with the clock read passed in
as `now`. -/
def isTokenExpired (storedToken : StoredToken) (bufferSeconds now : Int) : Bool :=
  now ≥ storedToken.expiresAt - bufferSeconds * 1000

/-- `AuthStatus` from `src/oauth.ts`. The source renders `expiresAt` as an ISO
date string; the model keeps the underlying epoch-ms value (`none` when the
field is absent). -/
structure AuthStatus where
  isAuthenticated : Bool
  isExpired : Bool
  expiresAtMs : Option Int
  expiresIn : Option Int
  deriving Repr, DecidableEq

/-- `TickTickOAuth.getAuthStatus` (src/oauth.ts:393-415). The source reads the
clock twice: `now1` inside `isTokenExpired` and `now2` in the `expiresIn`
computation; `Math.floor` of the JS division is integer floor division. -/
def getAuthStatus (file : Option TokenFileContent) (now1 now2 : Int) : AuthStatus :=
  match loadToken file with
  | none => ⟨false, true, none, none⟩
  | some storedToken =>
    let isExpired := isTokenExpired storedToken defaultBufferSeconds now1
    let expiresIn : Int :=
      if isExpired then 0 else Int.fdiv (storedToken.expiresAt - now2) 1000
    ⟨true, isExpired, some storedToken.expiresAt, some expiresIn⟩

deriving instance DecidableEq for Except

/-- The observable outcome of one run of `TickTickOAuth.getValidAccessToken`:
the returned value or thrown error message, the token file afterwards, and how
many refresh (network) calls and store (file-write) calls were performed. -/
structure GVATOutcome where
  result : Except String String
  file : Option TokenFileContent
  refreshCalls : Nat
  storeCalls : Nat
  deriving Repr, DecidableEq

/-- `TickTickOAuth.getValidAccessToken` (src/oauth.ts:434-457).
`refreshResult` is the oracle for the single possible `refreshToken` network
call: `.ok tokens` when that call would resolve, `.error msg` when it would
throw an `Error` with message `msg`. `now` is the clock read inside
`isTokenExpired` (called with the default buffer); `storeNow1`/`storeNow2` are
the two clock reads inside `storeToken`. The `catch` wraps the thrown error's
message as `Failed to refresh token: <msg>`. -/
def getValidAccessToken (file : Option TokenFileContent) (now : Int)
    (refreshResult : Except String TokenResponse)
    (storeNow1 storeNow2 : Int) : GVATOutcome :=
  match loadToken file with
  | none =>
    ⟨.error "Not authenticated. Please complete the OAuth flow first.", file, 0, 0⟩
  | some storedToken =>
    if isTokenExpired storedToken defaultBufferSeconds now then
      match refreshResult with
      | .ok newTokens =>
        ⟨.ok newTokens.access_token, storeToken file newTokens storeNow1 storeNow2, 1, 1⟩
      | .error msg =>
        ⟨.error ("Failed to refresh token: " ++ msg), file, 1, 0⟩
    else
      ⟨.ok storedToken.accessToken, file, 0, 0⟩

/-! ## Error mapping (`src/sdk/errors.ts`) -/

/-- `ApiErrorResponse` from `src/sdk/types.ts`: the error-shaped fields of a
JSON error body; each field is optional. -/
structure ApiErrorResponse where
  error : Option String
  message : Option String
  error_description : Option String
  deriving Repr, DecidableEq

/-- The text of a response body as the source observes it via
`response.text()` + `JSON.parse`: empty text, text that fails to parse as
JSON, or a parsed JSON document (`fields` is its projection onto the
`ApiErrorResponse` fields, `raw` stands for the parsed document itself). -/
inductive BodyText where
  | empty
  | invalidJson (raw : String)
  | json (fields : ApiErrorResponse) (raw : String)
  deriving Repr, DecidableEq

/-- An HTTP response as consumed by `createErrorFromResponse` and
`TickTickClient.request`: status, status text, body, and the value of
`response.headers.get("retry-after")` (`none` when the header is absent). -/
structure HttpResponse where
  status : Nat
  statusText : String
  body : BodyText
  retryAfterHeader : Option String
  deriving Repr, DecidableEq

/-- JS truthiness of an optional string field: `undefined` and `""` are
falsy. -/
def truthy : Option String → Bool
  | none => false
  | some s => s ≠ ""

/-- JS `parseInt(s, 10)`: skip leading whitespace, read an optional sign
(codepoints 45 `-` and 43 `+`), then the longest digit prefix; `none` models
`NaN` (no digits). -/
def jsParseInt (s : String) : Option Int :=
  let cs := s.toList.dropWhile Char.isWhitespace
  let signedRest : Int × List Char :=
    match cs with
    | c :: rest =>
      if c.toNat = 45 then (-1, rest)
      else if c.toNat = 43 then (1, rest)
      else (1, cs)
    | [] => (1, [])
  let digits := signedRest.2.takeWhile Char.isDigit
  if digits.isEmpty then none
  else some (signedRest.1 *
    ((digits.foldl (fun acc c => acc * 10 + (c.toNat - 48)) 0 : Nat) : Int))

/-- The message computation of `createErrorFromResponse`
(src/sdk/errors.ts:182-199): start from the fallback
`HTTP <status>: <statusText>`; when the body text is non-empty and parses as
JSON, take the first truthy field among `error_description`, `message`,
`error`; a parse failure keeps the fallback. -/
def errorBodyMessage (status : Nat) (statusText : String) (body : BodyText) : String :=
  let fallback := "HTTP " ++ toString status ++ ": " ++ statusText
  match body with
  | .empty => fallback
  | .invalidJson _ => fallback
  | .json fields _ =>
    if truthy fields.error_description then fields.error_description.getD ""
    else if truthy fields.message then fields.message.getD ""
    else if truthy fields.error then fields.error.getD ""
    else fallback

/-- The retry-after computation of `createErrorFromResponse`
(src/sdk/errors.ts:202-208): `headers.get` may yield no header or an empty
(falsy) string, otherwise `parseInt` is applied and `NaN` is turned back into
`undefined`. -/
def parseRetryAfter : Option String → Option Int
  | none => none
  | some h => if h = "" then none else jsParseInt h

/-- The observable fields of a constructed `TickTickApiError` (or subclass):
the class is identified by its `name` field exactly as the source sets it;
`statusCode`/`errorCode` are the constants each subclass constructor passes to
`super`, `retryAfter` exists only on `TickTickRateLimitError`. The stored
`responseBody` is not modelled. -/
structure TickTickApiErrorModel where
  name : String
  message : String
  statusCode : Nat
  errorCode : Option String
  retryAfter : Option Int
  deriving Repr, DecidableEq

/-- `new TickTickBadRequestError(message, body)` (src/sdk/errors.ts:137-143). -/
def mkBadRequestError (message : String) : TickTickApiErrorModel :=
  ⟨"TickTickBadRequestError", message, 400, some "bad_request", none⟩

/-- `new TickTickAuthError(message, body)` (src/sdk/errors.ts:85-91). -/
def mkAuthError (message : String) : TickTickApiErrorModel :=
  ⟨"TickTickAuthError", message, 401, some "unauthorized", none⟩

/-- `new TickTickForbiddenError(message, body)` (src/sdk/errors.ts:96-102). -/
def mkForbiddenError (message : String) : TickTickApiErrorModel :=
  ⟨"TickTickForbiddenError", message, 403, some "forbidden", none⟩

/-- `new TickTickNotFoundError(message, body)` (src/sdk/errors.ts:107-113). -/
def mkNotFoundError (message : String) : TickTickApiErrorModel :=
  ⟨"TickTickNotFoundError", message, 404, some "not_found", none⟩

/-- `new TickTickRateLimitError(message, retryAfter, body)`
(src/sdk/errors.ts:118-132). -/
def mkRateLimitError (message : String) (retryAfter : Option Int) :
    TickTickApiErrorModel :=
  ⟨"TickTickRateLimitError", message, 429, some "rate_limited", retryAfter⟩

/-- `new TickTickApiError(message, statusCode, errorCode, body)`
(src/sdk/errors.ts:41-51). -/
def mkApiError (message : String) (statusCode : Nat) (errorCode : Option String) :
    TickTickApiErrorModel :=
  ⟨"TickTickApiError", message, statusCode, errorCode, none⟩

/-- `body?.error` in the default branch of the status switch: the parsed
body's `error` field when the body text was non-empty and parsed, else
`undefined`. -/
def bodyErrorField : BodyText → Option String
  | .json fields _ => fields.error
  | _ => none

/-- `createErrorFromResponse` (src/sdk/errors.ts:178-224): compute the
message and the advisory retry-after value, then dispatch on the status
code. -/
def createErrorFromResponse (r : HttpResponse) : TickTickApiErrorModel :=
  let message := errorBodyMessage r.status r.statusText r.body
  let retryAfter := parseRetryAfter r.retryAfterHeader
  match r.status with
  | 400 => mkBadRequestError message
  | 401 => mkAuthError message
  | 403 => mkForbiddenError message
  | 404 => mkNotFoundError message
  | 429 => mkRateLimitError message retryAfter
  | s => mkApiError message s (bodyErrorField r.body)

/-! ## `TickTickClient.request` response handling (src/oauth.ts:609-678 of the
client source) -/

/-- `response.ok`: status in the 2xx range. -/
def responseOk (status : Nat) : Bool :=
  decide (200 ≤ status) && decide (status ≤ 299)

/-- How one run of `TickTickClient.request` ends once an HTTP response has
arrived: a resolved value (`none` models `undefined`, `some raw` the parsed
JSON document), a thrown `TickTickError`, or a thrown non-TickTick exception
propagated as-is by the final `throw error` of the `catch` block. -/
inductive RequestOutcome where
  | ok (value : Option String)
  | typedError (e : TickTickApiErrorModel)
  | rawException (name msg : String)
  deriving Repr, DecidableEq

/-- The response-handling path of `TickTickClient.request`: on a non-2xx
status, throw `createErrorFromResponse` (a `TickTickApiError`, which the
`catch` re-throws as-is since its `name` is not `AbortError` and it is not a
`TypeError`); on 204 return `undefined` without reading the body; on empty
body text return `undefined`; otherwise `JSON.parse(text)`. When the text is
not valid JSON, `JSON.parse` throws a `SyntaxError`, which the `catch` block
matches against neither the `AbortError` branch nor the
`TypeError`-with-`fetch` branch, so it is re-thrown unchanged as an untyped
exception. -/
def handleResponse (r : HttpResponse) : RequestOutcome :=
  if !(responseOk r.status) then .typedError (createErrorFromResponse r)
  else if r.status = 204 then .ok none
  else
    match r.body with
    | .empty => .ok none
    | .invalidJson raw =>
      .rawException "SyntaxError" ("Unexpected token in JSON: " ++ raw)
    | .json _ raw => .ok (some raw)

/-- Whether a `RequestOutcome` is a thrown member of the typed
`TickTickApiError` taxonomy. -/
def RequestOutcome.isTypedError : RequestOutcome → Bool
  | .typedError _ => true
  | _ => false

/-- Modelled from the spec's words for the non-2xx mapping (C6): the error is
built as the spec describes it — the kind (class name and status code) is a
function of the status code alone (400→BadRequest, 401→Auth, 403→Forbidden,
404→NotFound, 429→RateLimit, otherwise generic ApiError retaining the raw
status); a RateLimit error carries the numeric value of the `retry-after`
header when present and numeric; the message is the first truthy field among
`error_description`, `message`, `error` of the parsed JSON error body, with
the fallback `HTTP <status>: <statusText>` when the body is empty, unparsable,
or has none of these fields. Compared with `createErrorFromResponse`, which is
translated from the source. -/
def specErrorFromResponse (r : HttpResponse) : TickTickApiErrorModel :=
  let fallback := "HTTP " ++ toString r.status ++ ": " ++ r.statusText
  let msg :=
    match r.body with
    | .json fields _ =>
      if truthy fields.error_description then fields.error_description.getD ""
      else if truthy fields.message then fields.message.getD ""
      else if truthy fields.error then fields.error.getD ""
      else fallback
    | _ => fallback
  match r.status with
  | 400 => ⟨"TickTickBadRequestError", msg, 400, some "bad_request", none⟩
  | 401 => ⟨"TickTickAuthError", msg, 401, some "unauthorized", none⟩
  | 403 => ⟨"TickTickForbiddenError", msg, 403, some "forbidden", none⟩
  | 404 => ⟨"TickTickNotFoundError", msg, 404, some "not_found", none⟩
  | 429 => ⟨"TickTickRateLimitError", msg, 429, some "rate_limited",
      parseRetryAfter r.retryAfterHeader⟩
  | s => ⟨"TickTickApiError", msg, s, bodyErrorField r.body, none⟩

/-! ## `encodeURIComponent` and `TickTickClient.updateTask` -/

/-- Characters `encodeURIComponent` leaves unescaped: ASCII letters, digits,
and `- _ . ! ~ * ' ( )` (codepoints 45, 95, 46, 33, 126, 42, 39, 40, 41). -/
def isUriUnreserved (c : Char) : Bool :=
  c.isAlpha || c.isDigit ||
    (c.toNat = 45 || c.toNat = 95 || c.toNat = 46 || c.toNat = 33 ||
     c.toNat = 126 || c.toNat = 42 || c.toNat = 39 || c.toNat = 40 ||
     c.toNat = 41)

/-- UTF-8 encoding of a Unicode codepoint as a byte list. -/
def utf8BytesOfCodepoint (n : Nat) : List Nat :=
  if n < 128 then [n]
  else if n < 2048 then [192 + n / 64, 128 + n % 64]
  else if n < 65536 then [224 + n / 4096, 128 + n / 64 % 64, 128 + n % 64]
  else [240 + n / 262144, 128 + n / 4096 % 64, 128 + n / 64 % 64, 128 + n % 64]

/-- Uppercase hexadecimal digit for `0 ≤ n < 16`. -/
def hexDigitUpper (n : Nat) : Char :=
  Char.ofNat (if n < 10 then 48 + n else 55 + n)

/-- A byte rendered as `%XX` with uppercase hex digits. -/
def percentEncodeByte (b : Nat) : String :=
  "%" ++ String.singleton (hexDigitUpper (b / 16)) ++
    String.singleton (hexDigitUpper (b % 16))

/-- JS `encodeURIComponent`: unreserved characters pass through, every other
character is percent-encoded byte-by-byte in UTF-8. -/
def encodeURIComponent (s : String) : String :=
  String.join (s.toList.map fun c =>
    if isUriUnreserved c then String.singleton c
    else String.join ((utf8BytesOfCodepoint c.toNat).map percentEncodeByte))

/-- `Priority` enum from `src/sdk/types.ts` (numeric codes 0, 1, 3, 5). -/
inductive Priority where
  | none
  | low
  | medium
  | high
  deriving Repr, DecidableEq

/-- `ChecklistItemStatus` enum from `src/sdk/types.ts` (codes 0, 1). -/
inductive ChecklistItemStatus where
  | unchecked
  | checked
  deriving Repr, DecidableEq

/-- `ChecklistItemInput` from `src/sdk/types.ts:130-143`. A TS field typed
`string | null` with `?` is modelled as `Option (Option String)`: the outer
layer is field presence, the inner one is `null`. -/
structure ChecklistItemInput where
  title : String
  status : Option ChecklistItemStatus
  isAllDay : Option Bool
  startDate : Option (Option String)
  timeZone : Option String
  sortOrder : Option Int
  deriving Repr, DecidableEq

/-- `UpdateTaskInput` from `src/sdk/types.ts:250-275`. Note: the interface
declares no `id` field. -/
structure UpdateTaskInput where
  title : Option String
  projectId : Option String
  content : Option String
  isAllDay : Option Bool
  startDate : Option (Option String)
  dueDate : Option (Option String)
  timeZone : Option String
  reminders : Option (List String)
  repeatFlag : Option String
  priority : Option Priority
  items : Option (List ChecklistItemInput)
  tags : Option (List String)
  deriving Repr, DecidableEq

/-- The request body `{ id: taskId, ...input }` built by
`TickTickClient.updateTask`: the literal's `id` property plus every property
of `input`. Since `UpdateTaskInput` has no `id` property, the spread cannot
override `id`. -/
structure UpdateTaskBody extends UpdateTaskInput where
  id : String
  deriving Repr, DecidableEq

/-- An outgoing API request as `TickTickClient.request` receives it from
`updateTask`: HTTP method, path appended to the base URL, JSON body. -/
structure UpdateTaskRequest where
  method : String
  path : String
  body : UpdateTaskBody
  deriving Repr, DecidableEq

/-- `TickTickClient.updateTask` (client source, `updateTask` method):
`this.post("/task/" + encodeURIComponent(taskId), { id: taskId, ...input })`. -/
def updateTask (taskId : String) (input : UpdateTaskInput) : UpdateTaskRequest :=
  ⟨"POST", "/task/" ++ encodeURIComponent taskId, ⟨input, taskId⟩⟩

end TickTick

open TickTick

/-! ## Theorems -/

/-- Claim C4: for every stored token, buffer value and current time,
`isTokenExpired` is true iff `now ≥ expiresAt - buffer*1000`; the boundary
instant `now = expiresAt - buffer*1000` counts as expired (the comparison is
inclusive); and the default buffer is 60 seconds. -/
theorem isTokenExpired_iff_inclusive_boundary :
    (∀ (st : StoredToken) (buffer now : Int),
      isTokenExpired st buffer now = true ↔ now ≥ st.expiresAt - buffer * 1000)
    ∧ (∀ (st : StoredToken) (buffer : Int),
      isTokenExpired st buffer (st.expiresAt - buffer * 1000) = true)
    ∧ defaultBufferSeconds = 60 := by
  refine ⟨fun st buffer now => ?_, fun st buffer => ?_, rfl⟩
  · simp [isTokenExpired]
  · simp [isTokenExpired]

/-- Claim C8: for every token response and any prior file state, `storeToken`
followed by `loadToken` returns a stored token whose `accessToken`,
`refreshToken` and `tokenType` equal the response's `access_token`,
`refresh_token` and `token_type`, and whose `expiresAt` equals
`storedAt + expires_in*1000` up to the drift `now1 - now2` between the two
`Date.now()` reads inside `storeToken`. -/
theorem storeToken_loadToken_roundtrip (file : Option TokenFileContent)
    (tokens : TokenResponse) (now1 now2 : Int) :
    loadToken (storeToken file tokens now1 now2) =
      some (toStoredToken tokens now1 now2)
    ∧ (toStoredToken tokens now1 now2).accessToken = tokens.access_token
    ∧ (toStoredToken tokens now1 now2).refreshToken = tokens.refresh_token
    ∧ (toStoredToken tokens now1 now2).tokenType = tokens.token_type
    ∧ (toStoredToken tokens now1 now2).expiresAt =
        (toStoredToken tokens now1 now2).storedAt + tokens.expires_in * 1000
          + (now1 - now2) := by
  refine ⟨rfl, rfl, rfl, rfl, ?_⟩
  simp [toStoredToken]
  ring

/-- Claim C9: from any token-file state, `clearToken` followed by `loadToken`
returns `null`; `clearToken` truncates an existing file to empty content
rather than deleting it, and is a no-op when the file does not exist; the
resulting empty (unparsable) file is treated by `loadToken` exactly like a
missing file. -/
theorem clearToken_loadToken_null (file : Option TokenFileContent) :
    loadToken (clearToken file) = none
    ∧ clearToken none = none
    ∧ (∀ c, clearToken (some c) = some (.invalid "")) := by
  refine ⟨?_, rfl, fun c => rfl⟩
  cases file <;> rfl

/-- Claim C10: for every task id and update input, `updateTask` issues a POST
to `/task/<encodeURIComponent taskId>` whose body is the input object with an
additional `id` field equal to `taskId`; since `UpdateTaskInput` declares no
`id` field, the body's `id` always equals the task id in the URL path. -/
theorem updateTask_body_id_matches_path (taskId : String)
    (input : UpdateTaskInput) :
    (updateTask taskId input).method = "POST"
    ∧ (updateTask taskId input).path = "/task/" ++ encodeURIComponent taskId
    ∧ (updateTask taskId input).body.id = taskId
    ∧ (updateTask taskId input).body.toUpdateTaskInput = input := by
  exact ⟨rfl, rfl, rfl, rfl⟩

/-- Claim C1: for every stored token, when the buffered expiry check says the
token is not expired, `getValidAccessToken` returns the stored access token
unchanged with zero refresh (network) calls and zero store calls and the file
untouched; when the check says it is expired and the refresh call succeeds, it
performs exactly one refresh call and exactly one store call, the refreshed
token is persisted (the final file holds the converted new token), and the new
response's access token is returned. -/
theorem getValidAccessToken_stored_token (file : Option TokenFileContent)
    (st : StoredToken) (now : Int) (refreshResult : Except String TokenResponse)
    (sn1 sn2 : Int) (hload : loadToken file = some st) :
    (isTokenExpired st defaultBufferSeconds now = false →
      getValidAccessToken file now refreshResult sn1 sn2 =
        ⟨.ok st.accessToken, file, 0, 0⟩)
    ∧ (∀ newTokens : TokenResponse,
        isTokenExpired st defaultBufferSeconds now = true →
        refreshResult = .ok newTokens →
        getValidAccessToken file now refreshResult sn1 sn2 =
          ⟨.ok newTokens.access_token,
            some (.valid (toStoredToken newTokens sn1 sn2)), 1, 1⟩) := by
  constructor
  · intro hfresh
    simp [getValidAccessToken, hload, hfresh]
  · intro newTokens hexp hre
    subst hre
    simp [getValidAccessToken, hload, hexp, storeToken]

/-- Witness for C1: a token that expires at epoch-ms 2000000 checked at time 0
is returned unchanged with no calls; a token that expired at epoch-ms 1000
checked at time 1000000 with a successful refresh yields one refresh call, one
store call, the refreshed token persisted, and the new access token. -/
theorem getValidAccessToken_stored_token_witness :
    getValidAccessToken (some (.valid ⟨"A", "R", 2000000, "bearer", 0⟩)) 0
        (.error "net down") 5 6 =
      ⟨.ok "A", some (.valid ⟨"A", "R", 2000000, "bearer", 0⟩), 0, 0⟩
    ∧ getValidAccessToken (some (.valid ⟨"A", "R", 1000, "bearer", 0⟩)) 1000000
        (.ok ⟨"NEW", "bearer", 3600, "R2"⟩) 7 8 =
      ⟨.ok "NEW", some (.valid ⟨"NEW", "R2", 3600007, "bearer", 8⟩), 1, 1⟩ := by
  constructor
  · exact (getValidAccessToken_stored_token
      (some (.valid ⟨"A", "R", 2000000, "bearer", 0⟩))
      ⟨"A", "R", 2000000, "bearer", 0⟩ 0 (.error "net down") 5 6 rfl).1
      (by decide)
  · exact (getValidAccessToken_stored_token
      (some (.valid ⟨"A", "R", 1000, "bearer", 0⟩))
      ⟨"A", "R", 1000, "bearer", 0⟩ 1000000 (.ok ⟨"NEW", "bearer", 3600, "R2"⟩)
      7 8 rfl).2 ⟨"NEW", "bearer", 3600, "R2"⟩ (by decide) rfl

/-- Claim C2: for every stored token that the buffered check says is expired,
when the refresh call fails with message `msg`, `getValidAccessToken` fails
with an error wrapping the underlying failure
(`Failed to refresh token: <msg>`), after exactly one refresh call and zero
store calls, and the token file is left exactly as it was. -/
theorem getValidAccessToken_failed_refresh_keeps_token
    (file : Option TokenFileContent) (st : StoredToken) (now : Int)
    (msg : String) (sn1 sn2 : Int) (hload : loadToken file = some st)
    (hexp : isTokenExpired st defaultBufferSeconds now = true) :
    getValidAccessToken file now (.error msg) sn1 sn2 =
      ⟨.error ("Failed to refresh token: " ++ msg), file, 1, 0⟩ := by
  simp [getValidAccessToken, hload, hexp]

/-- Witness for C2: an expired token with a failing refresh leaves the stale
token file untouched and surfaces the wrapped error. -/
theorem getValidAccessToken_failed_refresh_keeps_token_witness :
    getValidAccessToken (some (.valid ⟨"A", "R", 1000, "bearer", 0⟩)) 1000000
        (.error "HTTP 500") 5 6 =
      ⟨.error "Failed to refresh token: HTTP 500",
        some (.valid ⟨"A", "R", 1000, "bearer", 0⟩), 1, 0⟩ := by
  exact getValidAccessToken_failed_refresh_keeps_token _ _ 1000000 "HTTP 500"
    5 6 rfl (by decide)

/-- Claim C3: whenever `loadToken` yields `null` (missing file, or an existing
file whose contents do not parse), `getValidAccessToken` fails with the
not-authenticated error and performs zero refresh (network) calls and zero
store calls, leaving the file as it was. -/
theorem getValidAccessToken_not_authenticated (file : Option TokenFileContent)
    (now : Int) (refreshResult : Except String TokenResponse) (sn1 sn2 : Int)
    (hload : loadToken file = none) :
    getValidAccessToken file now refreshResult sn1 sn2 =
      ⟨.error "Not authenticated. Please complete the OAuth flow first.",
        file, 0, 0⟩ := by
  simp [getValidAccessToken, hload]

/-- Witness for C3: with no token file at all, and with an existing but
unparsable (e.g. emptied) token file, the call fails with the
not-authenticated error and no calls. -/
theorem getValidAccessToken_not_authenticated_witness :
    getValidAccessToken none 0 (.error "unused") 0 0 =
      ⟨.error "Not authenticated. Please complete the OAuth flow first.",
        none, 0, 0⟩
    ∧ getValidAccessToken (some (.invalid "")) 0 (.error "unused") 0 0 =
      ⟨.error "Not authenticated. Please complete the OAuth flow first.",
        some (.invalid ""), 0, 0⟩ := by
  exact ⟨getValidAccessToken_not_authenticated none 0 _ 0 0 rfl,
    getValidAccessToken_not_authenticated (some (.invalid "")) 0 _ 0 0 rfl⟩

/-- Counterexample to claim C5: for a stored token whose `expiresAt` is 30
seconds in the future (inside the 60-second buffer), the claim's formula
`max(0, (expiresAt - now)/1000)` gives the positive value 30, but
`getAuthStatus` reports `expiresIn = 0` because the buffered check already
classifies the token as expired. -/
theorem getAuthStatus_thirty_seconds_left_is_zero :
    (getAuthStatus (some (.valid ⟨"A", "R", 1030000, "bearer", 0⟩))
      1000000 1000000).expiresIn = some 0
    ∧ max 0 (Int.fdiv (1030000 - 1000000) 1000) = 30
    ∧ (0 : Int) ≠ 30 := by
  exact ⟨rfl, by decide, by decide⟩

/-- Claim C5 (amended): `getAuthStatus` with no loadable token returns
`{isAuthenticated := false, isExpired := true}` with both expiry fields
absent; for every stored token it returns `isAuthenticated := true`,
`isExpired` computed by the buffered check, and `expiresIn` equal to 0 when
that check reports expired (even for a token whose `expiresAt` is still in the
future, e.g. 30 seconds away) and to `floor((expiresAt - now)/1000)`
otherwise — a value that is strictly positive whenever the buffered check
reports not-expired and the two clock reads coincide. -/
theorem getAuthStatus_spec (file : Option TokenFileContent) (now1 now2 : Int) :
    (loadToken file = none →
      getAuthStatus file now1 now2 = ⟨false, true, none, none⟩)
    ∧ (∀ st, loadToken file = some st →
        getAuthStatus file now1 now2 =
          ⟨true, isTokenExpired st defaultBufferSeconds now1, some st.expiresAt,
            some (if isTokenExpired st defaultBufferSeconds now1 then 0
              else Int.fdiv (st.expiresAt - now2) 1000)⟩)
    ∧ (∀ st, loadToken file = some st →
        isTokenExpired st defaultBufferSeconds now1 = false →
        0 < Int.fdiv (st.expiresAt - now1) 1000) := by
  refine ⟨fun hnone => ?_, fun st hsome => ?_, fun st hsome hfresh => ?_⟩
  · simp [getAuthStatus, hnone]
  · simp [getAuthStatus, hsome]
  · have hlt : now1 < st.expiresAt - defaultBufferSeconds * 1000 := by
      have := hfresh
      simp [isTokenExpired] at this
      omega
    rw [Int.fdiv_eq_ediv _ (by omega)]
    simp [defaultBufferSeconds] at hlt
    omega

/-- Witness for C5 (amended): instantiated at a missing file, at a fresh
token, and at a token inside the buffer window. -/
theorem getAuthStatus_spec_witness :
    getAuthStatus none 0 0 = ⟨false, true, none, none⟩
    ∧ getAuthStatus (some (.valid ⟨"A", "R", 2000000, "bearer", 0⟩)) 0 0 =
      ⟨true, false, some 2000000, some 2000⟩
    ∧ getAuthStatus (some (.valid ⟨"A", "R", 1030000, "bearer", 0⟩))
        1000000 1000000 = ⟨true, true, some 1030000, some 0⟩
    ∧ 0 < Int.fdiv ((2000000 : Int) - 0) 1000 := by
  refine ⟨(getAuthStatus_spec none 0 0).1 rfl, ?_, ?_, ?_⟩
  · have h := (getAuthStatus_spec
      (some (.valid ⟨"A", "R", 2000000, "bearer", 0⟩)) 0 0).2.1
      ⟨"A", "R", 2000000, "bearer", 0⟩ rfl
    rw [h]
    decide
  · have h := (getAuthStatus_spec
      (some (.valid ⟨"A", "R", 1030000, "bearer", 0⟩)) 1000000 1000000).2.1
      ⟨"A", "R", 1030000, "bearer", 0⟩ rfl
    rw [h]
    decide
  · exact (getAuthStatus_spec
      (some (.valid ⟨"A", "R", 2000000, "bearer", 0⟩)) 0 0).2.2
      ⟨"A", "R", 2000000, "bearer", 0⟩ rfl (by decide)

/-- Claim C6: for every non-2xx response, `createErrorFromResponse` agrees
with the mapping the spec describes (`specErrorFromResponse`): the error kind
(class name and status code) is a deterministic function of the status code —
it does not change with the body (parsable or not) or the headers — with
400→BadRequest, 401→Auth, 403→Forbidden, 404→NotFound, 429→RateLimit and any
other status a generic `TickTickApiError` retaining the raw status; the
RateLimit `retryAfter` comes from a numeric `retry-after` header and is absent
when the header is missing or non-numeric; the message follows the preference
order `error_description` > `message` > `error` (a field counts as present
when it is JS-truthy, i.e. not `undefined` and not the empty string), falling
back to `HTTP <status>: <statusText>` when the body is empty or unparsable. -/
theorem createErrorFromResponse_matches_spec (r : HttpResponse) :
    createErrorFromResponse r = specErrorFromResponse r
    ∧ (∀ (b2 : BodyText) (h2 : Option String),
        (createErrorFromResponse ⟨r.status, r.statusText, b2, h2⟩).name
          = (createErrorFromResponse r).name
        ∧ (createErrorFromResponse ⟨r.status, r.statusText, b2, h2⟩).statusCode
          = (createErrorFromResponse r).statusCode)
    ∧ parseRetryAfter (some "30") = some 30
    ∧ parseRetryAfter none = none
    ∧ parseRetryAfter (some "soon") = none
    ∧ createErrorFromResponse ⟨429, "Too Many Requests", .empty, some "30"⟩
        = mkRateLimitError "HTTP 429: Too Many Requests" (some 30)
    ∧ createErrorFromResponse ⟨429, "Too Many Requests", .empty, none⟩
        = mkRateLimitError "HTTP 429: Too Many Requests" none := by
  rcases r with ⟨status, statusText, body, hdr⟩
  refine ⟨?_, fun b2 h2 => ?_, rfl, rfl, rfl, rfl, rfl⟩
  · unfold createErrorFromResponse specErrorFromResponse
    cases body <;>
      simp only [errorBodyMessage, bodyErrorField, mkBadRequestError,
        mkAuthError, mkForbiddenError, mkNotFoundError, mkRateLimitError,
        mkApiError]
  · unfold createErrorFromResponse
    constructor <;> (split <;>
      simp_all [mkBadRequestError, mkAuthError, mkForbiddenError,
        mkNotFoundError, mkRateLimitError, mkApiError])

/-- Counterexample to claim C7: a 200 response with the non-JSON body
`not json` does not fail with a member of the typed error taxonomy — the
`SyntaxError` thrown by `JSON.parse` is re-thrown unchanged by the `catch`
block (it is neither an `AbortError` nor a `TypeError`), so the request fails
with an untyped exception. -/
theorem handleResponse_parse_failure_is_untyped :
    handleResponse ⟨200, "OK", .invalidJson "not json", none⟩ =
      .rawException "SyntaxError" "Unexpected token in JSON: not json"
    ∧ (handleResponse
        ⟨200, "OK", .invalidJson "not json", none⟩).isTypedError = false := by
  exact ⟨rfl, rfl⟩

/-- Claim C7 (amended): for every 2xx response processed by the client's
`request` method, a 204 status or an empty body yields an empty/undefined
result without JSON parsing; for every non-empty body that is not valid JSON
the request fails by propagating the raw JSON parse exception (a
`SyntaxError`) as-is — an untyped exception, not a member of the typed error
taxonomy. -/
theorem handleResponse_2xx_spec (r : HttpResponse)
    (h2xx : responseOk r.status = true) :
    (r.status = 204 → handleResponse r = .ok none)
    ∧ (r.body = .empty → handleResponse r = .ok none)
    ∧ (∀ raw, r.status ≠ 204 → r.body = .invalidJson raw →
        handleResponse r =
          .rawException "SyntaxError" ("Unexpected token in JSON: " ++ raw)
        ∧ (handleResponse r).isTypedError = false) := by
  refine ⟨fun h204 => ?_, fun hempty => ?_, fun raw hne hinv => ?_⟩
  · simp [handleResponse, responseOk, h204]
  · by_cases h204 : r.status = 204 <;>
      simp_all [handleResponse, responseOk, hempty]
  · simp_all [handleResponse, responseOk, hne, hinv,
      RequestOutcome.isTypedError]

/-- Witness for C7 (amended): instantiated at a 204 response, at a 200
response with an empty body, and at a 200 response with a non-JSON body. -/
theorem handleResponse_2xx_spec_witness :
    handleResponse ⟨204, "No Content", .empty, none⟩ = .ok none
    ∧ handleResponse ⟨200, "OK", .empty, none⟩ = .ok none
    ∧ handleResponse ⟨200, "OK", .invalidJson "<html>", none⟩ =
        .rawException "SyntaxError" "Unexpected token in JSON: <html>" := by
  refine ⟨(handleResponse_2xx_spec ⟨204, "No Content", .empty, none⟩
    (by decide)).1 rfl,
    (handleResponse_2xx_spec ⟨200, "OK", .empty, none⟩ (by decide)).2.1 rfl,
    ((handleResponse_2xx_spec ⟨200, "OK", .invalidJson "<html>", none⟩
      (by decide)).2.2 "<html>" (by decide) rfl).1⟩
